import Mathlib

set_option maxRecDepth 10000

/-!
Verification model of the SD/MMC SPI block driver in `src/main/sd.c`
(Esp8266TestBoard).  The definitions below are shallow embeddings of the
driver's functions; machine integers are modelled as `Nat` with explicit
`% 2 ^ 32` where a 32-bit overflow can occur.  Bus traffic is modelled as
an explicit event trace; the byte streams returned by the card are
supplied as oracle functions.
-/

namespace Sd

/-! ## Constants

`STA_*`, `RES_*` and the ioctl opcodes come from FatFs `diskio.h`
(external library consumed by `sd.c`); `r1*`, `r3Ccs`, `bytePerSector`,
`maxSpiTransferSize` are the constants of `sd.c` lines 32-44. -/

def STA_NOINIT : Nat := 0x01

def STA_NODISK : Nat := 0x02

def STA_PROTECT : Nat := 0x04

def RES_OK : Nat := 0

def RES_ERROR : Nat := 1

def RES_WRPRT : Nat := 2

def RES_NOTRDY : Nat := 3

def RES_PARERR : Nat := 4

def CTRL_SYNC : Nat := 0

def GET_SECTOR_COUNT : Nat := 1

def GET_SECTOR_SIZE : Nat := 2

def GET_BLOCK_SIZE : Nat := 3

def CTRL_TRIM : Nat := 4

/-- Modelled from the spec: generic success/failure return codes used by the
helper functions of `sd.c` (`RET_OK`/`RET_NG`).  They are defined in a header
that is not under `src/`; only their distinctness is used by the driver. -/
def RET_OK : Nat := 0

/-- Modelled from the spec: failure return code, see `RET_OK`. -/
def RET_NG : Nat := 1

def r1Invalid : Nat := 0x80

def r1NoError : Nat := 0x00

def r1InitIdle : Nat := 0x01

def r1bBusy : Nat := 0

def r3Ccs : Nat := 0x40000000

def bytePerSector : Nat := 512

def maxSpiTransferSize : Nat := 64

def rdAccepted : Nat := 0x05

def startDataBlockToken : Nat := 0xfe

def startDataBlockTokenCmd25 : Nat := 0xfc

def stopDataBlockTokenCmd25 : Nat := 0xfd

/-- `Card_t` of `sd.c` line 26. -/
inductive Card where
  | SdVer2Block : Card
  | SdVer2Byte : Card
  | SdVer1 : Card
  | MmcVer3 : Card
  | Unknown : Card
  deriving DecidableEq

/-- `InitType_t` of `sd.c` line 25. -/
inductive InitType where
  | SdVer2 : InitType
  | SdVer1 : InitType
  | MmcVer3 : InitType
  deriving DecidableEq

/-! ## Register bit-field extraction (`GetRegValue`, sd.c lines 825-845)

`data` is the 16-byte register buffer in arrival order; `value` is a C
`uint32_t`, hence the `% 2 ^ 32` on the shift.  The C loop
`for(i = msbyte; i <= lsbyte; i++)` is a left fold over the byte window.
The final mask `(1UL << (msb - lsb + 1)) - 1` is embedded as the
unbounded natural `2 ^ (msb - lsb + 1) - 1`: for widths up to 31 this is
exactly the C value, while at width 32 or more the C shift of a 32-bit
`unsigned long` is undefined behaviour on the ILP32 target (the usual
wrapped shift would give mask 0), so no theorem below asserts anything
about the extraction at widths beyond 31. -/

def GetRegValue (data : Nat → Nat) (msb lsb : Nat) : Nat :=
  let lsbyte := 15 - lsb / 8
  let msbyte := 15 - msb / 8
  let value := (List.range (lsbyte + 1 - msbyte)).foldl
    (fun v j => ((v <<< 8) % 2 ^ 32) ||| data (msbyte + j)) 0
  let value := value >>> (lsb % 8)
  value &&& ((1 <<< (msb - lsb + 1)) - 1)

/-- Big-endian concatenation of the first `n` bytes produced by `f`
(most-significant byte first).  Helper for relating `GetRegValue` to the
mathematical register value. -/
def beBytes (f : Nat → Nat) (n : Nat) : Nat :=
  ∑ j ∈ Finset.range n, f j * 2 ^ (8 * (n - 1 - j))

/-- The register contents as one natural number under the card's big-endian
bit numbering: bit `b` of this number lives in buffer byte `15 - b / 8`
(the buffer is stored byte-reversed relative to the bit numbering). -/
def regNat (data : Nat → Nat) : Nat :=
  beBytes data 16

/-- Specification-side meaning of a register bit-field: the unsigned integer
held in bits `[msb:lsb]` of the register, i.e. the register value shifted
right by `lsb` and masked to `msb - lsb + 1` bits (spec section 4.2 step 6). -/
def regFieldSpec (data : Nat → Nat) (msb lsb : Nat) : Nat :=
  (regNat data >>> lsb) % 2 ^ (msb - lsb + 1)

/-! ## CSD version 1 decoding (`Initialize`, sd.c lines 300-313) -/

def csdV1SectorCount (reg : Nat → Nat) : Nat :=
  (1 <<< (GetRegValue reg 49 47 + 2 + GetRegValue reg 83 80 - 9)) *
    (GetRegValue reg 73 62 + 1)

def csdV1EraseUnit (reg : Nat → Nat) : Nat :=
  GetRegValue reg 45 39 + 1

/-- `auSizeTable` of sd.c line 329. -/
def auSizeTable : List Nat :=
  [0, 32, 64, 128, 256, 512, 1024, 2048, 4096, 8192, 16384, 24576, 32768,
   49152, 65536, 131072]

/-! ## Response polling (`WaitRes`, sd.c lines 1117-1142)

The byte returned by the `k`-th one-byte poll is `stream k`; the FreeRTOS
timeout timer is modelled by `fuel`: when it reaches `0` the timer callback
has fired (`status != 0`) and the loop exits with `r1Invalid`. -/

def WaitRes (stream : Nat → Nat) (continueValue : Nat) : Nat → Nat → Nat
  | 0, _ => r1Invalid
  | fuel + 1, k =>
    let rx := stream k &&& 0xff
    if rx ≠ continueValue then rx
    else WaitRes stream continueValue fuel (k + 1)

/-! ## Identification (`InitSdCom` sd.c lines 941-978, `Initialize` lines 203-360)

The card is modelled by its R1 response map `card cmd param`, plus the extra
payloads `r7` (CMD8) and `ocr` (CMD58).  `fuel` bounds the number of loop
iterations before the 500 ms timer fires. -/

def InitSdCom (card : Nat → Nat → Nat) (t : InitType) : Nat → Nat
  | 0 => RET_NG
  | fuel + 1 =>
    let isSd : Bool := decide (t = InitType.SdVer2) || decide (t = InitType.SdVer1)
    let cmd := if isSd then 41 else 1
    let param := if t = InitType.SdVer2 then 0x40000000 else 0x00000000
    if isSd ∧ (card 55 0 &&& 0xfe) ≠ r1NoError then RET_NG
    else
      let res1 := card cmd param
      if res1 = r1NoError then RET_OK
      else if res1 ≠ r1InitIdle then RET_NG
      else InitSdCom card t fuel

/-- Identification chain of `Initialize`, sd.c lines 231-265: the value of
`s_cardType` after the CMD0/CMD8/ACMD41/CMD1/CMD58 cascade. -/
def identifyCard (card : Nat → Nat → Nat) (r7 ocr fuel : Nat) : Card :=
  if card 0 0x00000000 = r1InitIdle then
    if card 8 0x000001aa = r1InitIdle then
      if r7 &&& 0x00000fff = 0x000001aa then
        if InitSdCom card InitType.SdVer2 fuel = RET_OK then
          if card 58 0x00000000 = r1NoError then
            if ocr &&& r3Ccs ≠ 0 then Card.SdVer2Block else Card.SdVer2Byte
          else Card.Unknown
        else Card.Unknown
      else Card.Unknown
    else if InitSdCom card InitType.SdVer1 fuel = RET_OK then Card.SdVer1
    else if InitSdCom card InitType.MmcVer3 fuel = RET_OK then Card.MmcVer3
    else Card.Unknown
  else Card.Unknown

/-! ## Driver state and the `Initialize` entry point -/

/-- The driver's statics `s_cardType`, `s_cardStatus`, `s_cardSize`,
`s_allocationUnitSize` (sd.c lines 49-52). -/
structure DriverState where
  cardType : Card
  cardStatus : Nat
  cardSize : Nat
  allocationUnitSize : Nat
  deriving DecidableEq

/-- `s_cardStatus` right after driver construction (`sd_Initialize`,
sd.c line 121). -/
def sdInitializeStatus : Nat := STA_NOINIT

/-- Oracle inputs for one `Initialize` run: R1 response map, CMD8/CMD58
payloads, the outcome of the two `ReadRegister` calls (`none` = failure)
and the poll budget before the init timer fires. -/
structure InitEnv where
  card : Nat → Nat → Nat
  r7 : Nat
  ocr : Nat
  csd : Option (Nat → Nat)
  sdStatus : Option (Nat → Nat)
  fuel : Nat

/-- Identification, CMD16 and CSD decoding of `Initialize`
(sd.c lines 231-338): the final card type, card size and allocation unit
size.  Stale `st` values are kept where the C code leaves the statics
untouched. -/
def initCompute (st : DriverState) (e : InitEnv) : Card × Nat × Nat :=
  let ct0 := identifyCard e.card e.r7 e.ocr e.fuel
  let ct1 :=
    match ct0 with
    | Card.SdVer2Byte | Card.SdVer1 | Card.MmcVer3 =>
      if e.card 16 bytePerSector ≠ r1NoError then Card.Unknown else ct0
    | _ => ct0
  match e.csd with
  | none => (Card.Unknown, st.cardSize, st.allocationUnitSize)
  | some reg =>
    if ct1 ≠ Card.Unknown then
      let csdVer := GetRegValue reg 127 126
      if csdVer = 0 then
        (ct1, csdV1SectorCount reg, csdV1EraseUnit reg)
      else if csdVer = 1 then
        let size := (GetRegValue reg 69 48 + 1) <<< 10
        match e.sdStatus with
        | none => (Card.Unknown, size, st.allocationUnitSize)
        | some sreg => (ct1, size, auSizeTable.getD (GetRegValue sreg 47 44) 0)
      else (Card.Unknown, st.cardSize, st.allocationUnitSize)
    else (ct1, st.cardSize, st.allocationUnitSize)

/-- Final status assignment of `Initialize` (sd.c line 357). -/
def initFinal (ct : Card) (size au : Nat) : Nat × DriverState :=
  let status := if ct ≠ Card.Unknown then 0 else STA_NOINIT
  (status, ⟨ct, status, size, au⟩)

/-- `Initialize` (sd.c lines 203-360): returns the `DSTATUS` result and the
updated driver statics.  A card already initialized returns `0` at once
(line 206). -/
def InitializeM (st : DriverState) (e : InitEnv) : Nat × DriverState :=
  if st.cardStatus &&& STA_NOINIT = 0 then (0, st)
  else
    let c := initCompute st e
    initFinal c.1 c.2.1 c.2.2

/-! ## Bus events

One `Ev` per externally visible action of a block-I/O call: mutex handling,
chip-select, pin-direction switches, commands, tokens, and data moved to or
from the caller's buffer (identified by the byte positions within the
buffer that the SPI transaction touches). -/

inductive Ev where
  | takeMutex : Ev
  | giveMutex : Ev
  | csLow : Ev
  | csHigh : Ev
  | setRx : Ev
  | setTx : Ev
  | sendCmd : Nat → Nat → Ev
  | sendTok : Nat → Ev
  | sendData : List Nat → Ev
  | sendCrc : Ev
  | recvData : Nat → Nat → Ev
  | recvCrc : Ev
  deriving DecidableEq

/-- Source-buffer byte positions transmitted, in order. -/
def srcPositions : List Ev → List Nat
  | [] => []
  | Ev.sendData l :: xs => l ++ srcPositions xs
  | _ :: xs => srcPositions xs

/-- Destination-buffer byte positions written, in order. -/
def dstPositions : List Ev → List Nat
  | [] => []
  | Ev.recvData d n :: xs => List.range' d n ++ dstPositions xs
  | _ :: xs => dstPositions xs

/-- The (command, argument) pairs sent, in order. -/
def cmdList : List Ev → List (Nat × Nat)
  | [] => []
  | Ev.sendCmd c p :: xs => (c, p) :: cmdList xs
  | _ :: xs => cmdList xs

/-- Number of data-block tokens sent (one start token per attempted write
block, plus one stop token for a completed multi-block write). -/
def tokCount : List Ev → Nat
  | [] => 0
  | Ev.sendTok _ :: xs => tokCount xs + 1
  | _ :: xs => tokCount xs

/-- Occurrences of the event `e`. -/
def countEv (e : Ev) : List Ev → Nat
  | [] => 0
  | x :: xs => (if x = e then 1 else 0) + countEv e xs

/-- Mutex and chip-select events (the resources claim C10 is about). -/
def isCtl : Ev → Bool
  | Ev.takeMutex | Ev.giveMutex | Ev.csLow | Ev.csHigh => true
  | _ => false

/-! ## Address translation (sd.c lines 400-411 and 555-563)

Byte-access card types multiply the sector number by 512 in the 32-bit
`sector` variable. -/

def translateSector (ct : Card) (sector : Nat) : Nat :=
  match ct with
  | Card.SdVer2Byte | Card.SdVer1 | Card.MmcVer3 => sector * bytePerSector % 2 ^ 32
  | _ => sector

/-- Bytes needed to reach the next 4-byte boundary:
`3 - (((int)buff + 3) % 4)` of sd.c lines 450 and 630. -/
def alignOf (buffAddr : Nat) : Nat :=
  3 - ((buffAddr + 3) % 4)

/-! ## ReadBlock (sd.c lines 386-533) -/

/-- Loop engine of `readChunksAux`; every iteration moves at least one
byte, so a fuel equal to `rem` covers the whole loop. -/
def readChunksGo : Nat → Nat → Nat → List (Nat × Nat)
  | 0, _, _ => []
  | fuel + 1, idx, rem =>
    if rem = 0 then []
    else if rem < 4 then [(idx, rem)]
    else if rem < maxSpiTransferSize then
      (idx, rem - rem % 4) :: readChunksGo fuel (idx + (rem - rem % 4)) (rem % 4)
    else
      (idx, maxSpiTransferSize) ::
        readChunksGo fuel (idx + maxSpiTransferSize) (rem - maxSpiTransferSize)

/-- The destination ranges of the SPI receive transactions that stream one
512-byte payload after the alignment prefix: the inner `for(i = align; ...)`
loop of sd.c lines 464-498.  `idx` is the current buffer index, `rem` the
bytes still to move (`bytePerSector - i`). -/
def readChunksAux (idx rem : Nat) : List (Nat × Nat) :=
  readChunksGo rem idx rem

/-- Oracle for one `ReadBlock` call: R1 of the read command, R1 of CMD12,
and the byte that ends the data-token wait before block `p`. -/
structure ReadEnv where
  cmdR1 : Nat
  cmd12 : Nat
  readTok : Nat → Nat

/-- The per-block loop of `ReadBlock` (sd.c lines 440-514).  `rem` is the
number of blocks still to read, `p` the current block index; block `p`
starts at buffer index `512 * p`. -/
def readGo (env : ReadEnv) (align : Nat) : Nat → Nat → Nat × List Ev
  | 0, _ => (RES_OK, [])
  | rem + 1, p =>
    if env.readTok p ≠ startDataBlockToken then (RES_ERROR, [])
    else
      let idx := bytePerSector * p
      let evs :=
        (if align ≠ 0 then [Ev.recvData idx align] else []) ++
        (readChunksAux (idx + align) (bytePerSector - align)).map
          (fun c => Ev.recvData c.1 c.2) ++ [Ev.recvCrc]
      let r := readGo env align rem (p + 1)
      (r.1, evs ++ r.2)

/-- `ReadBlock` from after `StartCommunication` up to the `sd_Read_End`
label: command, data loop, and the CMD12 epilogue that runs even when the
loop broke on a bad token (sd.c lines 415-525). -/
def ReadBody (env : ReadEnv) (count align sector : Nat) : Nat × List Ev :=
  let c := if 2 ≤ count then 18 else 17
  if env.cmdR1 ≠ r1NoError then (RES_ERROR, [Ev.sendCmd c sector])
  else
    let r := readGo env align count 0
    let r2 :=
      if 2 ≤ count then
        if env.cmd12 ≠ r1NoError then (RES_ERROR, r.2 ++ [Ev.setTx, Ev.sendCmd 12 0])
        else (r.1, r.2 ++ [Ev.setTx, Ev.sendCmd 12 0])
      else r
    (r2.1, [Ev.sendCmd c sector, Ev.setRx] ++ r2.2)

/-- `ReadBlock` (sd.c lines 386-533): `STA_NOINIT` gate, mutex, select, the
body, and the single exit path releasing select and the mutex.  Returns the
`DRESULT`, the event trace and the (unchanged) driver state. -/
def ReadBlockM (st : DriverState) (env : ReadEnv) (buffAddr sector count : Nat) :
    Nat × List Ev × DriverState :=
  if st.cardStatus &&& STA_NOINIT ≠ 0 then (RES_NOTRDY, [], st)
  else
    let sector := translateSector st.cardType sector
    let align := alignOf buffAddr
    let r := ReadBody env count align sector
    (r.1, [Ev.takeMutex, Ev.csLow] ++ r.2 ++ [Ev.setTx, Ev.csHigh, Ev.giveMutex], st)

/-! ## WriteBlock (sd.c lines 543-762) -/

/-- The source positions of each SPI transmit transaction of the inner
`for(i = align; ...)` loop of sd.c lines 640-700: every transaction carries
up to 4 bytes in the command/address fields and up to 64 more in the
`mosi` field; the trailing 1-3 bytes go out through the command/address
fields alone. -/
def writeChunksGo : Nat → Nat → Nat → List (List Nat)
  | 0, _, _ => []
  | fuel + 1, idx, rem =>
    if rem = 0 then []
    else if rem = 1 then [[idx]]
    else if rem = 2 then [[idx, idx + 1]]
    else if rem = 3 then [[idx, idx + 1, idx + 2]]
    else
      let len := min (rem - 4) maxSpiTransferSize
      List.range' idx (4 + len) :: writeChunksGo fuel (idx + 4 + len) (rem - 4 - len)

/-- Wrapper running the loop with enough fuel (each iteration moves at
least one byte). -/
def writeChunksAux (idx rem : Nat) : List (List Nat) :=
  writeChunksGo rem idx rem

/-- Oracle for one `WriteBlock` call: R1 responses of CMD55/CMD23/CMD25,
R1 of the per-block CMD24, the data-response token read after block `p`,
the result of the busy poll after block `p`, and the result of the busy
poll after the stop token (`r1Invalid` = poll timed out). -/
structure WriteEnv where
  cmd55 : Nat
  cmd23 : Nat
  cmd25 : Nat
  cmd24 : Nat → Nat
  dataTok : Nat → Nat
  busy : Nat → Nat
  stopBusy : Nat

/-- The per-block loop of `WriteBlock` plus the stop-token epilogue
(sd.c lines 610-753).  `rem` is the number of blocks still to write, `p`
the current block index, `res` the C variable `res` live at loop exit.
Note the alignment prefix of every block transmits buffer positions
`0 .. align-1` (sd.c lines 625-629 read `buff[i]`, not `buff[index + i]`),
and the data-response handling stores `WaitRes(...) & 0x1f` straight into
`res` (sd.c line 718). -/
def writeGo (env : WriteEnv) (multi : Bool) (align sector : Nat) :
    Nat → Nat → Nat → Nat × List Ev
  | 0, _, res =>
    if multi then
      let evs := [Ev.sendTok stopDataBlockTokenCmd25, Ev.setRx]
      if env.stopBusy = r1Invalid then (res, evs ++ [Ev.setTx])
      else (RES_OK, evs ++ [Ev.setTx])
    else (RES_OK, [])
  | rem + 1, p, _ =>
    let cmdEvs := if multi then [] else [Ev.sendCmd 24 sector]
    if ¬multi ∧ env.cmd24 p ≠ r1NoError then (RES_ERROR, cmdEvs)
    else
      let tok := if multi then startDataBlockTokenCmd25 else startDataBlockToken
      let evs := cmdEvs ++
        [Ev.sendTok tok, Ev.sendData (List.range' 0 align)] ++
        (writeChunksAux (bytePerSector * p + align) (bytePerSector - align)).map
          Ev.sendData ++ [Ev.sendCrc, Ev.setRx]
      let r := env.dataTok p &&& 0x1f
      if r ≠ rdAccepted then (r, evs ++ [Ev.setTx])
      else if env.busy p = r1Invalid then (r, evs ++ [Ev.setTx])
      else
        let rest := writeGo env multi align sector rem (p + 1) r
        (rest.1, evs ++ [Ev.setTx] ++ rest.2)

/-- `WriteBlock` from after `StartCommunication` up to the `sd_Write_End`
label (sd.c lines 570-755): the CMD55/CMD23/CMD25 preamble of a
multi-block write (CMD55 skipped for MMC, sd.c line 573) and the block
loop. -/
def WriteBody (env : WriteEnv) (ct : Card) (count align sector : Nat) : Nat × List Ev :=
  if 2 ≤ count then
    let evs55 := if ct ≠ Card.MmcVer3 then [Ev.sendCmd 55 0] else []
    if ct ≠ Card.MmcVer3 ∧ env.cmd55 ≠ r1NoError then (RES_ERROR, evs55)
    else
      let evs23 := evs55 ++ [Ev.sendCmd 23 count]
      if env.cmd23 ≠ r1NoError then (RES_ERROR, evs23)
      else
        let evs25 := evs23 ++ [Ev.sendCmd 25 sector]
        if env.cmd25 ≠ r1NoError then (RES_ERROR, evs25)
        else
          let r := writeGo env true align sector count 0 RES_ERROR
          (r.1, evs25 ++ r.2)
  else writeGo env false align sector count 0 RES_ERROR

/-- `WriteBlock` (sd.c lines 543-762): `STA_NOINIT` gate, translation,
mutex, select, body, single exit path. -/
def WriteBlockM (st : DriverState) (env : WriteEnv) (buffAddr sector count : Nat) :
    Nat × List Ev × DriverState :=
  if st.cardStatus &&& STA_NOINIT ≠ 0 then (RES_NOTRDY, [], st)
  else
    let sector := translateSector st.cardType sector
    let align := alignOf buffAddr
    let r := WriteBody env st.cardType count align sector
    (r.1, [Ev.takeMutex, Ev.csLow] ++ r.2 ++ [Ev.csHigh, Ev.giveMutex], st)

/-! ## ControlIo (sd.c lines 771-816) -/

/-- `ControlIo`: result code and the value written through the out
parameter, if any. -/
def ControlIo (st : DriverState) (cmd : Nat) : Nat × Option Nat :=
  if st.cardStatus &&& STA_NOINIT ≠ 0 then (RES_NOTRDY, none)
  else if cmd = CTRL_SYNC then (RES_OK, none)
  else if cmd = GET_SECTOR_COUNT then (RES_OK, some st.cardSize)
  else if cmd = GET_SECTOR_SIZE then (RES_OK, some bytePerSector)
  else if cmd = GET_BLOCK_SIZE then (RES_OK, some st.allocationUnitSize)
  else if cmd = CTRL_TRIM then (RES_OK, none)
  else (RES_PARERR, none)

/-! ## Concrete states and oracles used by evaluation theorems -/

/-- A successfully identified block-addressed card. -/
def stReady : DriverState :=
  ⟨Card.SdVer2Block, 0, 29792, 32⟩

/-- The driver before any successful identification. -/
def stNoInit : DriverState :=
  ⟨Card.Unknown, STA_NOINIT, 0, 0⟩

/-- A write oracle on which every step succeeds (data-response token
`0xe5` has low five bits `0b00101`). -/
def envWriteOk : WriteEnv :=
  ⟨0, 0, 0, fun _ => 0, fun _ => 0xe5, fun _ => 0xff, 0xff⟩

/-- A write oracle whose data-response wait times out on every block:
`WaitRes` returns the sentinel `0x80`, whose low five bits are `0`. -/
def envWriteTokFail : WriteEnv :=
  ⟨0, 0, 0, fun _ => 0, fun _ => r1Invalid, fun _ => 0xff, 0xff⟩

/-- A read oracle on which every step succeeds. -/
def envReadOk : ReadEnv :=
  ⟨0, 0, fun _ => startDataBlockToken⟩

/-- The 128-bit value of the CSD reference vector of spec section 8:
structure version 0, `C_SIZE = 0x3A2` at bits [73:62], `C_SIZE_MULT = 0x3`
at bits [49:47], `READ_BL_LEN = 0x9` at bits [83:80]. -/
def csdRefN : Nat := 0x3A2 * 2 ^ 62 + 3 * 2 ^ 47 + 9 * 2 ^ 80

/-- The CSD reference vector as a 16-byte arrival-order buffer. -/
def csdRefVector : Nat → Nat := fun i => csdRefN >>> (8 * (15 - i)) % 256

/-- Register buffer whose byte 11 (register bits [39:32]) is `0xFF` and all
other bytes are zero. -/
def data11 : Nat → Nat := fun i => if i = 11 then 255 else 0

/-- A card that accepts CMD0 with the idle response, accepts CMD1 with the
ready response, and rejects every other command with an error R1 (`0x05`). -/
def cardW : Nat → Nat → Nat := fun c _ => if c = 0 then 1 else if c = 1 then 0 else 5

/-- An identification oracle for a card that completes the SD v2 path and
returns the v1 CSD reference vector. -/
def envInitOk : InitEnv :=
  ⟨fun c _ => if c = 0 ∨ c = 8 then 1 else 0, 0x1aa, 0x40000000,
   some csdRefVector, none, 2⟩

/-! # Theorems -/

/-- C1: the claim demands that for every block of a `read_blocks` or
`write_blocks` transfer and every buffer alignment, the streaming transfer
moves exactly the payload bytes in order with no byte moved twice and no
gap, for every block index of a multi-block operation.  The code violates
this: in a two-block write with buffer address `≡ 1 (mod 4)` the 1024
transmitted source positions contain position `0` twice and never contain
position `512` (sd.c lines 625-631 rebuild the per-block alignment prefix
from `buff[0..3]` instead of `buff[index..index+3]`).  The read path and a
single-block write at the same alignment do transfer exactly the payload
in order. -/
theorem WriteBlock_realignment_bug_eval :
    (srcPositions (WriteBlockM stReady envWriteOk 1 0 2).2.1).length = 1024 ∧
    (srcPositions (WriteBlockM stReady envWriteOk 1 0 2).2.1).count 0 = 2 ∧
    512 ∉ srcPositions (WriteBlockM stReady envWriteOk 1 0 2).2.1 ∧
    dstPositions (ReadBlockM stReady envReadOk 1 0 2).2.1 = List.range' 0 1024 ∧
    srcPositions (WriteBlockM stReady envWriteOk 1 0 1).2.1 = List.range' 0 512 := by
  exact ⟨by decide, by decide, by decide, by decide, by decide⟩

/-- C2: the claim states that a data-response token whose low five bits
differ from `0b00101` makes `write_blocks` return an error for the whole
call.  The code violates this when the low five bits are `0` (in
particular on a data-response poll timeout, which yields the sentinel
`0x80`): `res = WaitRes(...) & 0x1f` (sd.c line 718) stores `0 = RES_OK`
and the call returns success after aborting, having attempted only the
first of two blocks (one start token sent). -/
theorem WriteBlock_data_response_timeout_returns_ok :
    (WriteBlockM stReady envWriteTokFail 0 0 2).1 = RES_OK ∧
    tokCount (WriteBlockM stReady envWriteTokFail 0 0 2).2.1 = 1 := by
  exact ⟨by decide, by decide⟩

/-- C5: if the transport never returns a byte differing from the polled
continue value, `WaitRes` terminates once the timeout timer fires
(whatever the poll budget) and returns the sentinel `r1Invalid = 0x80`,
which cannot be a legal R1 response since bit 7 of R1 is always 0.  The
hypothesis covers all three polling uses: primary-response wait and
data-token wait (`continueValue = 0xff`) and the busy wait after a write
(`continueValue = 0x00`). -/
theorem WaitRes_timeout_sentinel (stream : Nat → Nat) (continueValue fuel k : Nat)
    (h : ∀ n, stream n &&& 0xff = continueValue) :
    WaitRes stream continueValue fuel k = r1Invalid ∧
    ∀ r : Nat, r < 0x80 → r ≠ r1Invalid := by
  constructor
  · induction fuel generalizing k with
    | zero => rfl
    | succ n ih =>
      rw [WaitRes]
      simp only [h, ne_eq, not_true_eq_false, if_false]
      exact ih (k + 1)
  · intro r hr
    simp only [r1Invalid]
    omega

/-- Witness for `WaitRes_timeout_sentinel` at a transport that always
returns the idle byte `0xff`. -/
theorem WaitRes_timeout_sentinel_witness :
    WaitRes (fun _ => 0xff) 0xff 5 0 = r1Invalid ∧
    ∀ r : Nat, r < 0x80 → r ≠ r1Invalid := by
  refine WaitRes_timeout_sentinel (fun _ => 0xff) 0xff 5 0 ?_
  intro n
  show (0xff : Nat) &&& 0xff = 0xff
  decide

/-- C7: a card that accepts CMD0 with the idle response, rejects CMD8,
fails the CMD55+ACMD41 handshake of the SD v1 path, and accepts CMD1 is
classified as `MmcVer3` (sd.c lines 235-265 and 941-978). -/
theorem identifyCard_mmc_fallback (card : Nat → Nat → Nat) (r7 ocr fuel : Nat)
    (h0 : card 0 0 = r1InitIdle)
    (h8 : card 8 0x1aa ≠ r1InitIdle)
    (hsd1 : InitSdCom card InitType.SdVer1 fuel = RET_NG)
    (h1 : card 1 0 = r1NoError)
    (hfuel : 1 ≤ fuel) :
    identifyCard card r7 ocr fuel = Card.MmcVer3 := by
  obtain ⟨m, rfl⟩ : ∃ m, fuel = m + 1 := ⟨fuel - 1, by omega⟩
  have hmmc : InitSdCom card InitType.MmcVer3 (m + 1) = RET_OK := by
    rw [InitSdCom]
    simp [h1]
  rw [identifyCard]
  simp [h0, h8, hsd1, hmmc, RET_NG, RET_OK]

/-- Witness for `identifyCard_mmc_fallback` at the concrete card
`cardW`. -/
theorem identifyCard_mmc_fallback_witness :
    identifyCard cardW 0 0 1 = Card.MmcVer3 :=
  identifyCard_mmc_fallback cardW 0 0 1 (by decide) (by decide) (by decide)
    (by decide) (by decide)

/-- C9: whenever the `NotInitialized` flag is set, `ControlIo` returns the
not-ready result for every opcode, before inspecting the opcode and
without reading the cached geometry; not-ready is a third outcome distinct
from both success and parameter-error (sd.c lines 771-776). -/
theorem ControlIo_notready_gate (st : DriverState) (cmd : Nat)
    (h : st.cardStatus &&& STA_NOINIT ≠ 0) :
    ControlIo st cmd = (RES_NOTRDY, none) ∧
    RES_NOTRDY ≠ RES_OK ∧ RES_NOTRDY ≠ RES_PARERR := by
  refine ⟨?_, by decide, by decide⟩
  unfold ControlIo
  rw [if_pos h]

/-- Witness for `ControlIo_notready_gate`: the uninitialized driver
rejects both the sync opcode and the sector-count query. -/
theorem ControlIo_notready_gate_witness :
    ControlIo stNoInit CTRL_SYNC = (RES_NOTRDY, none) ∧
    ControlIo stNoInit GET_SECTOR_COUNT = (RES_NOTRDY, none) :=
  ⟨(ControlIo_notready_gate stNoInit CTRL_SYNC (by decide)).1,
   (ControlIo_notready_gate stNoInit GET_SECTOR_COUNT (by decide)).1⟩

/-- C3: for a version-0 (v1) CSD, the decoder of sd.c lines 300-313
computes the sector count `((C_SIZE + 1) << (C_SIZE_MULT + 2 +
READ_BL_LEN)) / 512` (for the field values a real CSD can hold the shift
exponent is at least 9) and the erase unit `SECTOR_SIZE + 1`; on the
reference vector `C_SIZE = 0x3A2`, `C_SIZE_MULT = 0x3`, `READ_BL_LEN =
0x9` the sector count is 29792. -/
theorem Initialize_csdV1_decode :
    (∀ reg : Nat → Nat,
      9 ≤ GetRegValue reg 49 47 + 2 + GetRegValue reg 83 80 →
      csdV1SectorCount reg =
        ((GetRegValue reg 73 62 + 1) <<<
          (GetRegValue reg 49 47 + 2 + GetRegValue reg 83 80)) / 512 ∧
      csdV1EraseUnit reg = GetRegValue reg 45 39 + 1) ∧
    csdV1SectorCount csdRefVector = 29792 := by
  constructor
  · intro reg h
    refine ⟨?_, rfl⟩
    unfold csdV1SectorCount
    rw [Nat.shiftLeft_eq, Nat.shiftLeft_eq, Nat.one_mul]
    rw [show (2:Nat) ^ (GetRegValue reg 49 47 + 2 + GetRegValue reg 83 80) =
      2 ^ (GetRegValue reg 49 47 + 2 + GetRegValue reg 83 80 - 9) * 2 ^ 9 by
        rw [← pow_add]
        congr 1
        omega]
    rw [show (512:Nat) = 2 ^ 9 by norm_num, ← Nat.mul_assoc,
      Nat.mul_div_cancel _ (Nat.pos_pow_of_pos 9 (by norm_num))]
    ring
  · decide

/-- Witness for `Initialize_csdV1_decode` at the reference CSD vector. -/
theorem Initialize_csdV1_decode_witness :
    csdV1SectorCount csdRefVector =
      ((GetRegValue csdRefVector 73 62 + 1) <<<
        (GetRegValue csdRefVector 49 47 + 2 + GetRegValue csdRefVector 83 80)) / 512 ∧
    csdV1EraseUnit csdRefVector = GetRegValue csdRefVector 45 39 + 1 :=
  Initialize_csdV1_decode.1 csdRefVector (by decide)

/-- C4 counterexample: the claim asserts `GetRegValue` returns the exact
bit-field for every range of width at most 32, but for `[37:7]` (width 31)
on a register whose byte 11 is `0xFF` the 32-bit accumulator drops the
high byte of the five-byte window: the code returns 0 while bits `[37:7]`
hold 2113929216. -/
theorem GetRegValue_truncation_counterexample :
    GetRegValue data11 37 7 = 0 ∧
    regFieldSpec data11 37 7 = 2113929216 ∧
    37 - 7 + 1 ≤ 32 := by
  exact ⟨by decide, by decide, by decide⟩

/-- C6 counterexample: the claim asserts that for an `MmcVer3` card no
pre-erase command is issued between the `count >= 2` check and CMD25, but
in a two-block write to an MMC card the first command issued is the bare
pre-erase block-count command CMD23 (sd.c line 581 is outside the
`s_cardType != Card_MmcVer3` guard), followed by CMD25. -/
theorem WriteBlock_mmc_sends_cmd23 :
    cmdList (WriteBlockM ⟨Card.MmcVer3, 0, 1000, 1⟩ envWriteOk 0 0 2).2.1 =
      [(23, 2), (25, 0)] := by
  decide

/-- C8: the `NotInitialized` flag is set at driver construction and, after
an `Initialize` run, it is clear exactly when identification succeeded
(final card type not `Unknown`, sd.c line 357); both block-I/O entry
points check the flag first and, when it is set, return the not-ready
result with no bus traffic (empty event trace) and the driver state
unchanged (sd.c lines 391-394 and 550-553).  The hypothesis is the state
invariant that a clear flag comes from a successful earlier run. -/
theorem cardStatus_gating (st : DriverState) (e : InitEnv) (envR : ReadEnv)
    (envW : WriteEnv) (a s c : Nat)
    (hinv : st.cardStatus &&& STA_NOINIT = 0 → st.cardType ≠ Card.Unknown) :
    sdInitializeStatus &&& STA_NOINIT ≠ 0 ∧
    ((InitializeM st e).1 &&& STA_NOINIT = 0 ↔
      (InitializeM st e).2.cardType ≠ Card.Unknown) ∧
    (st.cardStatus &&& STA_NOINIT ≠ 0 →
      ReadBlockM st envR a s c = (RES_NOTRDY, [], st) ∧
      WriteBlockM st envW a s c = (RES_NOTRDY, [], st)) := by
  refine ⟨by decide, ?_, ?_⟩
  · unfold InitializeM
    by_cases h : st.cardStatus &&& STA_NOINIT = 0
    · rw [if_pos h]
      simpa using hinv h
    · rw [if_neg h]
      unfold initFinal
      by_cases hct : (initCompute st e).1 = Card.Unknown
      · simp [hct, STA_NOINIT]
      · simp [hct, STA_NOINIT]
  · intro h
    constructor
    · unfold ReadBlockM
      rw [if_pos h]
    · unfold WriteBlockM
      rw [if_pos h]

/-- Witness for `cardStatus_gating`: the never-initialized driver rejects
both I/O entry points outright, and a full identification run on
`envInitOk` clears the flag. -/
theorem cardStatus_gating_witness :
    ((InitializeM stNoInit envInitOk).1 &&& STA_NOINIT = 0 ↔
      (InitializeM stNoInit envInitOk).2.cardType ≠ Card.Unknown) ∧
    ReadBlockM stNoInit envReadOk 0 0 1 = (RES_NOTRDY, [], stNoInit) ∧
    WriteBlockM stNoInit envWriteOk 0 0 1 = (RES_NOTRDY, [], stNoInit) := by
  have h := cardStatus_gating stNoInit envInitOk envReadOk envWriteOk 0 0 1 (by decide)
  exact ⟨h.2.1, h.2.2 (by decide)⟩

theorem cmdList_append (l1 l2 : List Ev) :
    cmdList (l1 ++ l2) = cmdList l1 ++ cmdList l2 := by
  induction l1 with
  | nil => rfl
  | cons x xs ih => cases x <;> simp [cmdList, ih]

theorem cmdList_map_sendData (l : List (List Nat)) :
    cmdList (l.map Ev.sendData) = [] := by
  induction l with
  | nil => rfl
  | cons x xs ih => simp [cmdList, ih]

/-- The block loop of a multi-block write issues no commands (blocks are
framed by tokens, not commands). -/
theorem cmdList_writeGo_multi (env : WriteEnv) (align sector : Nat) :
    ∀ rem p res, cmdList (writeGo env true align sector rem p res).2 = [] := by
  intro rem
  induction rem with
  | zero =>
    intro p res
    rw [writeGo]
    split_ifs <;> simp_all [cmdList]
  | succ n ih =>
    intro p res
    rw [writeGo]
    split_ifs <;> simp_all [cmdList, cmdList_append, cmdList_map_sendData]
    split <;> simp_all [cmdList, cmdList_append, cmdList_map_sendData]

/-- C6 (amended): in a multi-block write the CMD55 application prefix is
sent only for non-MMC cards, but the pre-erase block-count command CMD23
itself is sent for every card type: for `MmcVer3` the commands issued
before the data phase are exactly the bare `CMD23(count)` followed by
`CMD25(address)`, and for non-MMC cards `CMD55`, `CMD23(count)`,
`CMD25(address)` (sd.c lines 570-592). -/
theorem WriteBlock_preerase_commands (env : WriteEnv) (ct : Card)
    (count align sector : Nat) (h2 : 2 ≤ count)
    (h55 : env.cmd55 = r1NoError) (h23 : env.cmd23 = r1NoError)
    (h25 : env.cmd25 = r1NoError) :
    (ct = Card.MmcVer3 →
      cmdList (WriteBody env ct count align sector).2 =
        [(23, count), (25, sector)]) ∧
    (ct ≠ Card.MmcVer3 →
      cmdList (WriteBody env ct count align sector).2 =
        [(55, 0), (23, count), (25, sector)]) := by
  constructor
  · intro hct
    subst hct
    unfold WriteBody
    rw [if_pos h2]
    simp [h55, h23, h25, cmdList, cmdList_append, cmdList_writeGo_multi]
  · intro hct
    unfold WriteBody
    rw [if_pos h2]
    simp [hct, h55, h23, h25, cmdList, cmdList_append, cmdList_writeGo_multi]

/-- Witness for `WriteBlock_preerase_commands` at a two-block write with
every command accepted. -/
theorem WriteBlock_preerase_commands_witness :
    cmdList (WriteBody envWriteOk Card.MmcVer3 2 0 0).2 = [(23, 2), (25, 0)] ∧
    cmdList (WriteBody envWriteOk Card.SdVer1 2 0 0).2 =
      [(55, 0), (23, 2), (25, 0)] :=
  ⟨(WriteBlock_preerase_commands envWriteOk Card.MmcVer3 2 0 0 (by decide)
      (by decide) (by decide) (by decide)).1 rfl,
   (WriteBlock_preerase_commands envWriteOk Card.SdVer1 2 0 0 (by decide)
      (by decide) (by decide) (by decide)).2 (by decide)⟩

theorem countEv_nil (e : Ev) : countEv e [] = 0 := rfl

theorem countEv_append (e : Ev) (l1 l2 : List Ev) :
    countEv e (l1 ++ l2) = countEv e l1 + countEv e l2 := by
  induction l1 with
  | nil => simp [countEv]
  | cons x xs ih => simp [countEv, ih, Nat.add_assoc]

theorem ne_ctl {e : Ev} (he : isCtl e = true) {x : Ev} (hx : isCtl x = false) :
    x ≠ e := by
  intro h
  rw [h, he] at hx
  cases hx

theorem countEv_cons_of_not_ctl {e : Ev} (he : isCtl e = true) {x : Ev}
    (hx : isCtl x = false) (l : List Ev) : countEv e (x :: l) = countEv e l := by
  simp [countEv, if_neg (ne_ctl he hx)]

theorem countEv_map_sendData {e : Ev} (he : isCtl e = true) (l : List (List Nat)) :
    countEv e (l.map Ev.sendData) = 0 := by
  induction l with
  | nil => rfl
  | cons c cs ih =>
    rw [List.map_cons, @countEv_cons_of_not_ctl e he (Ev.sendData c) rfl _, ih]

theorem countEv_map_recvData {e : Ev} (he : isCtl e = true)
    (l : List (Nat × Nat)) :
    countEv e (l.map fun c => Ev.recvData c.1 c.2) = 0 := by
  induction l with
  | nil => rfl
  | cons c cs ih =>
    rw [List.map_cons, @countEv_cons_of_not_ctl e he (Ev.recvData c.1 c.2) rfl _, ih]

/-- The read loop emits neither mutex nor chip-select events. -/
theorem countEv_readGo (env : ReadEnv) (align : Nat) {e : Ev}
    (he : isCtl e = true) :
    ∀ rem p, countEv e (readGo env align rem p).2 = 0 := by
  intro rem
  induction rem with
  | zero =>
    intro p
    simp [readGo, countEv]
  | succ n ih =>
    intro p
    rw [readGo]
    split_ifs <;>
      simp [countEv_nil, countEv_append, countEv_cons_of_not_ctl he, isCtl,
        countEv_map_recvData he, ih]

/-- `ReadBody` emits neither mutex nor chip-select events. -/
theorem countEv_ReadBody (env : ReadEnv) (count align sector : Nat) {e : Ev}
    (he : isCtl e = true) :
    countEv e (ReadBody env count align sector).2 = 0 := by
  unfold ReadBody
  split_ifs <;>
    simp [countEv_nil, countEv_append, countEv_cons_of_not_ctl he, isCtl,
      countEv_readGo env align he]

/-- The write loop emits neither mutex nor chip-select events. -/
theorem countEv_writeGo (env : WriteEnv) (multi : Bool) (align sector : Nat)
    {e : Ev} (he : isCtl e = true) :
    ∀ rem p res, countEv e (writeGo env multi align sector rem p res).2 = 0 := by
  intro rem
  induction rem with
  | zero =>
    intro p res
    rw [writeGo]
    split_ifs <;>
      simp [countEv_nil, countEv_append, countEv_cons_of_not_ctl he, isCtl]
  | succ n ih =>
    intro p res
    rw [writeGo]
    split_ifs <;>
      simp [countEv_nil, countEv_append, countEv_cons_of_not_ctl he, isCtl,
        countEv_map_sendData he, ih]
    all_goals
      split <;>
        simp [countEv_nil, countEv_append, countEv_cons_of_not_ctl he, isCtl,
          countEv_map_sendData he, ih]

/-- `WriteBody` emits neither mutex nor chip-select events. -/
theorem countEv_WriteBody (env : WriteEnv) (ct : Card) (count align sector : Nat)
    {e : Ev} (he : isCtl e = true) :
    countEv e (WriteBody env ct count align sector).2 = 0 := by
  unfold WriteBody
  split_ifs <;>
    simp [countEv_nil, countEv_append, countEv_cons_of_not_ctl he, isCtl,
      countEv_writeGo env true align sector he,
      countEv_writeGo env false align sector he]

/-- C10: a read or write call rejected by the `NotInitialized` gate emits
no bus event at all (takes neither the mutex nor chip-select); a call that
passes the gate takes the mutex once, asserts select once, and on every
exit path deasserts select exactly once and releases the mutex exactly
once, with select deasserted and then the mutex released as the last two
actions before returning (sd.c lines 391-418, 527-532, 550-567 and
757-761). -/
theorem readwrite_select_mutex_discipline (st : DriverState) (envR : ReadEnv)
    (envW : WriteEnv) (aR sR cR aW sW cW : Nat) :
    (st.cardStatus &&& STA_NOINIT ≠ 0 →
      (ReadBlockM st envR aR sR cR).2.1 = [] ∧
      (WriteBlockM st envW aW sW cW).2.1 = []) ∧
    (st.cardStatus &&& STA_NOINIT = 0 →
      (∀ e, isCtl e = true →
        countEv e (ReadBlockM st envR aR sR cR).2.1 = 1 ∧
        countEv e (WriteBlockM st envW aW sW cW).2.1 = 1) ∧
      (∃ l, (ReadBlockM st envR aR sR cR).2.1 =
        l ++ [Ev.setTx, Ev.csHigh, Ev.giveMutex]) ∧
      (∃ l, (WriteBlockM st envW aW sW cW).2.1 =
        l ++ [Ev.csHigh, Ev.giveMutex])) := by
  constructor
  · intro h
    constructor
    · unfold ReadBlockM
      rw [if_pos h]
    · unfold WriteBlockM
      rw [if_pos h]
  · intro h
    have hR : (ReadBlockM st envR aR sR cR).2.1 =
        [Ev.takeMutex, Ev.csLow] ++
          (ReadBody envR cR (alignOf aR) (translateSector st.cardType sR)).2 ++
          [Ev.setTx, Ev.csHigh, Ev.giveMutex] := by
      unfold ReadBlockM
      rw [if_neg (by simp [h])]
    have hW : (WriteBlockM st envW aW sW cW).2.1 =
        [Ev.takeMutex, Ev.csLow] ++
          (WriteBody envW st.cardType cW (alignOf aW)
            (translateSector st.cardType sW)).2 ++
          [Ev.csHigh, Ev.giveMutex] := by
      unfold WriteBlockM
      rw [if_neg (by simp [h])]
    refine ⟨?_, ?_, ?_⟩
    · intro e he
      rw [hR, hW]
      rw [countEv_append, countEv_append, countEv_append, countEv_append]
      rw [countEv_ReadBody envR cR _ _ he, countEv_WriteBody envW st.cardType cW _ _ he]
      cases e <;> simp [isCtl] at he ⊢ <;> simp [countEv]
    · rw [hR]
      exact ⟨_, rfl⟩
    · rw [hW]
      exact ⟨_, rfl⟩

/-- Witness for `readwrite_select_mutex_discipline`: at the uninitialized
driver the read trace is empty, and at a ready driver the mutex release
and chip-select deassert each occur exactly once. -/
theorem readwrite_select_mutex_discipline_witness :
    (ReadBlockM stNoInit envReadOk 0 0 1).2.1 = [] ∧
    countEv Ev.giveMutex (WriteBlockM stReady envWriteOk 1 0 2).2.1 = 1 ∧
    countEv Ev.csHigh (ReadBlockM stReady envReadOk 1 0 2).2.1 = 1 := by
  have h0 := readwrite_select_mutex_discipline stNoInit envReadOk envWriteOk 0 0 1 0 0 1
  have h1 := readwrite_select_mutex_discipline stReady envReadOk envWriteOk 1 0 2 1 0 2
  exact ⟨(h0.1 (by decide)).1,
    ((h1.2 (by decide)).1 Ev.giveMutex (by decide)).2,
    ((h1.2 (by decide)).1 Ev.csHigh (by decide)).1⟩

theorem testBit_mul_pow_add (a b k i : Nat) (hb : b < 2 ^ k) :
    Nat.testBit (a * 2 ^ k + b) i =
      if i < k then Nat.testBit b i else Nat.testBit a (i - k) := by
  rcases Nat.lt_or_ge i k with h | h
  · rw [if_pos h, Nat.testBit_to_div_mod, Nat.testBit_to_div_mod]
    have hk : (2:Nat) ^ k = 2 ^ (k - i) * 2 ^ i := by
      rw [← pow_add]
      congr 1
      omega
    rw [hk, ← Nat.mul_assoc, Nat.add_comm,
      Nat.add_mul_div_right _ _ (Nat.two_pow_pos i)]
    have h2 : a * 2 ^ (k - i) = a * 2 ^ (k - i - 1) * 2 := by
      rw [Nat.mul_assoc, ← pow_succ]
      congr 2
      omega
    rw [h2, Nat.add_mul_mod_self_right]
  · rw [if_neg (by omega), Nat.testBit_to_div_mod, Nat.testBit_to_div_mod]
    have hi : (2:Nat) ^ i = 2 ^ k * 2 ^ (i - k) := by
      rw [← pow_add]
      congr 1
      omega
    rw [hi, ← Nat.div_div_eq_div_mul, Nat.add_comm,
      Nat.add_mul_div_right _ _ (Nat.two_pow_pos k),
      Nat.div_eq_of_lt hb, Nat.zero_add]

theorem lor_mul_pow (a b k : Nat) (hb : b < 2 ^ k) :
    (a * 2 ^ k) ||| b = a * 2 ^ k + b := by
  apply Nat.eq_of_testBit_eq
  intro i
  rw [Nat.testBit_lor, testBit_mul_pow_add a b k i hb]
  rcases Nat.lt_or_ge i k with h | h
  · rw [if_pos h]
    have ha : Nat.testBit (a * 2 ^ k) i = false := by
      rw [← Nat.shiftLeft_eq, Nat.testBit_shiftLeft]
      simp
      omega
    rw [ha, Bool.false_or]
  · rw [if_neg (by omega)]
    have hbf : Nat.testBit b i = false :=
      Nat.testBit_lt_two_pow
        (lt_of_lt_of_le hb (Nat.pow_le_pow_right (by norm_num) h))
    rw [hbf, Bool.or_false, ← Nat.shiftLeft_eq, Nat.testBit_shiftLeft]
    simp [h]

theorem beBytes_zero (f : Nat → Nat) : beBytes f 0 = 0 := by
  simp [beBytes]

theorem beBytes_succ (f : Nat → Nat) (n : Nat) :
    beBytes f (n + 1) = beBytes f n * 256 + f n := by
  unfold beBytes
  rw [Finset.sum_range_succ, Finset.sum_mul]
  congr 1
  · refine Finset.sum_congr rfl fun j hj => ?_
    have hjn : j < n := Finset.mem_range.1 hj
    rw [show 8 * (n + 1 - 1 - j) = 8 * (n - 1 - j) + 8 by omega, pow_add]
    ring
  · simp

theorem beBytes_lt (f : Nat → Nat) (n : Nat) (h : ∀ j < n, f j < 256) :
    beBytes f n < 2 ^ (8 * n) := by
  induction n with
  | zero => simp [beBytes]
  | succ m ih =>
    rw [beBytes_succ]
    have h1 : beBytes f m < 2 ^ (8 * m) := ih fun j hj => h j (by omega)
    have h2 : f m < 256 := h m (by omega)
    have h3 : (2:Nat) ^ (8 * (m + 1)) = 2 ^ (8 * m) * 256 := by
      rw [show 8 * (m + 1) = 8 * m + 8 by omega, pow_add]
      norm_num
    rw [h3]
    omega

theorem beBytes_split (f : Nat → Nat) (m n : Nat) (hmn : m ≤ n) :
    beBytes f n =
      beBytes f m * 2 ^ (8 * (n - m)) + beBytes (fun j => f (m + j)) (n - m) := by
  induction n with
  | zero =>
    obtain rfl : m = 0 := by omega
    simp [beBytes]
  | succ k ih =>
    rcases Nat.eq_or_lt_of_le hmn with h | h
    · subst h
      simp [beBytes_zero]
    · have hmk : m ≤ k := by omega
      rw [beBytes_succ, ih hmk, show k + 1 - m = (k - m) + 1 by omega,
        beBytes_succ]
      simp only [Nat.add_sub_cancel' hmk]
      rw [show 8 * (k - m + 1) = 8 * (k - m) + 8 by omega, pow_add]
      ring

/-- The accumulation loop of `GetRegValue` computes the big-endian
concatenation of the bytes it visits, with no 32-bit truncation, as long
as it visits at most four bytes. -/
theorem foldl_beBytes (g : Nat → Nat) (off n : Nat) (hn : n ≤ 4)
    (hg : ∀ j < n, g (off + j) < 256) :
    (List.range n).foldl (fun v j => ((v <<< 8) % 2 ^ 32) ||| g (off + j)) 0 =
      beBytes (fun j => g (off + j)) n := by
  induction n with
  | zero => rfl
  | succ m ih =>
    rw [List.range_succ, List.foldl_append, List.foldl_cons, List.foldl_nil,
      ih (by omega) fun j hj => hg j (by omega)]
    have hW : beBytes (fun j => g (off + j)) m < 2 ^ (8 * m) :=
      beBytes_lt _ m fun j hj => hg j (by omega)
    have hWlt : beBytes (fun j => g (off + j)) m * 2 ^ 8 < 2 ^ 32 := by
      have h32 : (2:Nat) ^ (8 * m) * 2 ^ 8 ≤ 2 ^ 32 := by
        rw [← pow_add]
        exact Nat.pow_le_pow_right (by norm_num) (by omega)
      have := Nat.mul_lt_mul_of_lt_of_le hW (Nat.le_refl (2 ^ 8))
        (Nat.two_pow_pos 8)
      omega
    rw [Nat.shiftLeft_eq, Nat.mod_eq_of_lt hWlt,
      lor_mul_pow _ _ 8 (by have := hg m (by omega); omega),
      beBytes_succ]
    norm_num

set_option maxHeartbeats 1600000 in
/-- C4 (amended): `GetRegValue` returns exactly the register bit-field
`[msb:lsb]` whenever the field spans at most four buffer bytes
(`msb / 8 ≤ lsb / 8 + 3`, which bounds the selected bits to the low 32
bits of the concatenated byte window) and has width at most 31
(`msb - lsb + 1 ≤ 31`; at width exactly 32 the C mask expression
`(1UL << 32) - 1` is undefined behaviour on the 32-bit target, so
exactness is not claimed there).  Every field the driver extracts
satisfies both bounds.  For wider-spanning ranges of width at most 32 the
32-bit accumulator drops the top bytes (see
`GetRegValue_truncation_counterexample`). -/
theorem GetRegValue_correct_in_window (data : Nat → Nat) (msb lsb : Nat)
    (hdata : ∀ i < 16, data i < 256) (hml : lsb ≤ msb) (hmsb : msb ≤ 127)
    (hspan : msb / 8 ≤ lsb / 8 + 3) (_hwidth : msb - lsb + 1 ≤ 31) :
    GetRegValue data msb lsb = regFieldSpec data msb lsb := by
  have hL15 : lsb / 8 ≤ 15 := by omega
  have hM15 : msb / 8 ≤ 15 := by omega
  have hLM : lsb / 8 ≤ msb / 8 := Nat.div_le_div_right hml
  simp only [GetRegValue, regFieldSpec, regNat]
  set M := msb / 8 with hM
  set L := lsb / 8 with hL
  set nb := 15 - L + 1 - (15 - M) with hnb
  set s := lsb % 8 with hs
  set w := msb - lsb + 1 with hw
  have hnbML : nb = M - L + 1 := by omega
  have hnb4 : nb ≤ 4 := by omega
  have hnb1 : 1 ≤ nb := by omega
  rw [foldl_beBytes data (15 - M) nb hnb4
    (fun j hj => hdata _ (by omega))]
  rw [Nat.one_shiftLeft, Nat.and_pow_two_sub_one_eq_mod,
    Nat.shiftRight_eq_div_pow, Nat.shiftRight_eq_div_pow]
  set W := beBytes (fun j => data (15 - M + j)) nb with hW
  have hsplit1 := beBytes_split data (15 - M) 16 (by omega)
  rw [show 16 - (15 - M) = nb + L by omega] at hsplit1
  have hsplit2 := beBytes_split (fun j => data (15 - M + j)) nb (nb + L)
    (by omega)
  rw [show nb + L - nb = L by omega] at hsplit2
  set P := beBytes data (15 - M) with hP
  set S := beBytes (fun j => (fun j' => data (15 - M + j')) (nb + j)) L with hS
  have hSlt : S < 2 ^ (8 * L) := by
    refine beBytes_lt _ L fun j hj => ?_
    simp only []
    exact hdata _ (by omega)
  have key : beBytes data 16 = (P * 2 ^ (8 * nb) + W) * 2 ^ (8 * L) + S := by
    rw [hsplit1, hsplit2, show 8 * (nb + L) = 8 * nb + 8 * L by ring, pow_add]
    ring
  have hdiv : beBytes data 16 / 2 ^ lsb = W / 2 ^ s + P * 2 ^ (8 * nb - s) := by
    rw [key, show lsb = 8 * L + s by omega, pow_add, ← Nat.div_div_eq_div_mul,
      Nat.add_comm _ S, Nat.add_mul_div_right _ _ (Nat.two_pow_pos (8 * L)),
      Nat.div_eq_of_lt hSlt, Nat.zero_add]
    have h8nb : (2:Nat) ^ (8 * nb) = 2 ^ (8 * nb - s) * 2 ^ s := by
      rw [← pow_add]
      congr 1
      have : s < 8 := Nat.mod_lt lsb (by norm_num)
      omega
    rw [h8nb, ← Nat.mul_assoc, Nat.add_comm,
      Nat.add_mul_div_right _ _ (Nat.two_pow_pos s)]
  rw [hdiv]
  have hws : w + s ≤ 8 * nb := by
    have h1 : s < 8 := Nat.mod_lt lsb (by norm_num)
    have h2 : msb < 8 * M + 8 := by omega
    have h3 : 8 * L + s = lsb := by omega
    omega
  have hP2 : P * 2 ^ (8 * nb - s) = P * 2 ^ (8 * nb - s - w) * 2 ^ w := by
    rw [Nat.mul_assoc, ← pow_add]
    congr 2
    omega
  rw [hP2, Nat.add_mul_mod_self_right]

/-- Witness for `GetRegValue_correct_in_window` at the CSD v2 `C_SIZE`
field `[69:48]` of the reference vector. -/
theorem GetRegValue_correct_in_window_witness :
    GetRegValue csdRefVector 69 48 = regFieldSpec csdRefVector 69 48 :=
  GetRegValue_correct_in_window csdRefVector 69 48
    (by decide) (by decide) (by decide) (by decide) (by decide)

end Sd
